import Mathlib

/-!
Verification of the Renode-UI backend layer.

Shallow embedding of `src/backend/renode_wrapper.py` and
`src/backend/async_bridge.py`.

Modelling conventions:
* `Mode.real` corresponds to `PYRENODE_AVAILABLE = True` and `Mode.mock`
  to the fallback branch.
* Backend calls (`emulation.StartAll`, `monitor.execute`, ...) may raise;
  each such call site takes an explicit Boolean oracle `execOk` deciding
  whether the call succeeds.  Python exceptions are modelled by the
  `Option PyErr` component of each operation result: `none` means the
  call returned normally, `some e` means exception `e` propagated to the
  caller.  The state component is the post-state of the Python object,
  including mutations performed before a raise.
* File-system paths, thread handles and `threading.Event` objects are
  identified by natural numbers drawn from a fresh-id counter `next`.
  `files` is the set of temporary log files existing on disk,
  `tailerEvents` records every tailer thread ever started together with
  the id of the stop event it polls, and `setEvents` is the set of event
  ids whose `set()` has been called.  A tailer thread is alive exactly
  while its stop event is not set.
-/

/-- Whether `pyrenode3` imported successfully (`PYRENODE_AVAILABLE`). -/
inductive Mode
  | real
  | mock
deriving DecidableEq

/-- Python exceptions that the embedded code can raise. -/
inductive PyErr
  | valueError
  | backendError
  | attributeError
  | osError
deriving DecidableEq

/-- State of one `RenodeWrapper` object plus the parts of the outside
world (disk, threads, events) its operations touch. -/
structure WrapperState where
  running : Bool
  log_file_path : Option Nat
  log_thread : Option Nat
  stop_logging_event : Option Nat
  tailerEvents : List (Nat × Nat)
  setEvents : List Nat
  files : List Nat
  next : Nat
deriving DecidableEq

/-- State after `RenodeWrapper.__init__`: `running = False` and the three
logging fields `None`; no temp file, no tailer, no event exists yet. -/
def initWrapper : WrapperState :=
  { running := false
    log_file_path := none
    log_thread := none
    stop_logging_event := none
    tailerEvents := []
    setEvents := []
    files := []
    next := 0 }

namespace RenodeWrapper

/-- Embedding of `RenodeWrapper.load_script`.  Real branch: `emulation.clear()`
then `monitor.execute("i @path")`; on failure the exception is re-raised and
`running` is untouched.  Mock branch: sleeps, then raises `ValueError` iff the
path string is empty (`if not path`). -/
def load_script (mode : Mode) (execOk : Bool) (path : String) (s : WrapperState) :
    WrapperState × Option PyErr :=
  match mode with
  | .real => if execOk then (s, none) else (s, some .backendError)
  | .mock => if path = "" then (s, some .valueError) else (s, none)

/-- Embedding of `RenodeWrapper.start`.  Real branch sets `running = True`
only after `emulation.StartAll()` returns; a raise leaves `running` untouched.
Mock branch always succeeds. -/
def start (mode : Mode) (execOk : Bool) (s : WrapperState) :
    WrapperState × Option PyErr :=
  match mode with
  | .real =>
    if execOk then ({ s with running := true }, none) else (s, some .backendError)
  | .mock => ({ s with running := true }, none)

/-- Embedding of `RenodeWrapper.pause`.  Sets `running = False` only after
`emulation.PauseAll()` succeeds. -/
def pause (mode : Mode) (execOk : Bool) (s : WrapperState) :
    WrapperState × Option PyErr :=
  match mode with
  | .real =>
    if execOk then ({ s with running := false }, none) else (s, some .backendError)
  | .mock => ({ s with running := false }, none)

/-- Embedding of `RenodeWrapper.reset`.  Sets `running = False` only after
`emulation.clear()` succeeds. -/
def reset (mode : Mode) (execOk : Bool) (s : WrapperState) :
    WrapperState × Option PyErr :=
  match mode with
  | .real =>
    if execOk then ({ s with running := false }, none) else (s, some .backendError)
  | .mock => ({ s with running := false }, none)

/-- Embedding of `RenodeWrapper.read_memory`.  Both branches of the source
return the literal `0xDEADBEEF` without consulting the address, the width or
any state (the real branch is an explicit TODO stub). -/
def read_memory (mode : Mode) (addr width : Nat) : Nat :=
  match mode with
  | .real => 0xDEADBEEF
  | .mock => 0xDEADBEEF

/-- Embedding of `RenodeWrapper.setup_logging`.  Mock mode returns at once.
Real mode creates a fresh temp file and stores its path, then issues the
`logFile` and `logLevel` monitor commands; if those raise, the exception is
caught and the method returns (no tailer started).  Otherwise a fresh stop
event and a fresh tailer thread are created and stored, overwriting whatever
the three logging fields held before; the previous stop event (if any) is
never set. -/
def setup_logging (mode : Mode) (execOk : Bool) (s : WrapperState) :
    WrapperState × Option PyErr :=
  match mode with
  | .mock => (s, none)
  | .real =>
    let fileId := s.next
    let s1 : WrapperState :=
      { s with
        files := fileId :: s.files
        log_file_path := some fileId
        next := s.next + 1 }
    if execOk then
      let evId := s1.next
      let thId := s1.next + 1
      ({ s1 with
          stop_logging_event := some evId
          log_thread := some thId
          tailerEvents := (thId, evId) :: s1.tailerEvents
          next := s1.next + 2 }, none)
    else
      (s1, none)

/-- Embedding of `os.remove(p)`: raises `OSError` when the file does not
exist (FileNotFoundError) or when removal fails for another reason
(oracle `removeOk = false`); on success the path disappears from disk. -/
def os_remove (removeOk : Bool) (p : Nat) (files : List Nat) :
    Except PyErr (List Nat) :=
  if p ∈ files then
    if removeOk then .ok (files.filter (fun q => q != p)) else .error .osError
  else
    .error .osError

/-- Embedding of `RenodeWrapper.cleanup`.  Sets the stop event if one is
stored, joins the tailer thread with a bounded timeout (no state change),
and removes the temp file when its path is stored and the file exists;
an `OSError` from removal is swallowed (`except OSError: pass`).  The three
logging fields themselves are not cleared. -/
def cleanup (removeOk : Bool) (s : WrapperState) : WrapperState × Option PyErr :=
  let s1 :=
    match s.stop_logging_event with
    | some e =>
      { s with setEvents := if e ∈ s.setEvents then s.setEvents else e :: s.setEvents }
    | none => s
  let s2 :=
    match s1.log_file_path with
    | some p =>
      if p ∈ s1.files then
        match os_remove removeOk p s1.files with
        | .ok fs => { s1 with files := fs }
        | .error _ => s1
      else s1
    | none => s1
  (s2, none)

end RenodeWrapper

/-- One operation invoked on the wrapper, carrying the success oracles of
the backend calls it performs. -/
inductive WOp
  | opLoad (execOk : Bool) (path : String)
  | opStart (execOk : Bool)
  | opPause (execOk : Bool)
  | opReset (execOk : Bool)
  | opRead (addr width : Nat)
  | opSetup (execOk : Bool)
  | opCleanup (removeOk : Bool)
deriving DecidableEq

/-- Effect of one wrapper operation on the session state.  `opRead` mutates
nothing and raises nothing; its return value is `RenodeWrapper.read_memory`. -/
def stepW (mode : Mode) (op : WOp) (s : WrapperState) : WrapperState × Option PyErr :=
  match op with
  | .opLoad ok p => RenodeWrapper.load_script mode ok p s
  | .opStart ok => RenodeWrapper.start mode ok s
  | .opPause ok => RenodeWrapper.pause mode ok s
  | .opReset ok => RenodeWrapper.reset mode ok s
  | .opRead _ _ => (s, none)
  | .opSetup ok => RenodeWrapper.setup_logging mode ok s
  | .opCleanup r => RenodeWrapper.cleanup r s

/-- Run a sequence of operations on a freshly constructed wrapper. -/
def runTrace (mode : Mode) (ops : List WOp) : WrapperState :=
  ops.foldl (fun s op => (stepW mode op s).1) initWrapper

/-- Whether an operation is a `start()` call that completes successfully
(mock-mode start always succeeds; real-mode start succeeds iff its oracle
says the backend call returned). -/
def isSuccStart (mode : Mode) : WOp → Bool
  | .opStart ok => match mode with | .mock => true | .real => ok
  | _ => false

/-- The tailer threads of a session that are still alive: every started
tailer whose stop event has not been set keeps looping
(`while not stop_event.is_set()`), so it stays alive. -/
def liveTailers (s : WrapperState) : List (Nat × Nat) :=
  s.tailerEvents.filter (fun te => decide (te.2 ∉ s.setEvents))

/-- Number of live tailer threads of a session. -/
def liveCount (s : WrapperState) : Nat := (liveTailers s).length

/-- Id-freshness invariant of reachable wrapper states: every recorded
event id is below the fresh-id counter. -/
def wfW (s : WrapperState) : Prop :=
  (∀ e ∈ s.setEvents, e < s.next) ∧ (∀ te ∈ s.tailerEvents, te.2 < s.next)

instance (s : WrapperState) : Decidable (wfW s) := by
  unfold wfW; infer_instance

/-! ## The log-tailing loop (`RenodeWrapper._tail_log_file`) -/

/-- The characters Python `str.strip()` removes (ASCII whitespace). -/
def isPyWs (c : Char) : Bool :=
  c == ' ' || c == '\t' || c == '\n' || c == '\r' || c == '\x0b' || c == '\x0c'

/-- Python `line.strip()`: drop leading and trailing whitespace. -/
def pyStrip (l : List Char) : List Char :=
  ((l.dropWhile isPyWs).reverse.dropWhile isPyWs).reverse

/-- Embedding of the loop body of `_tail_log_file`.  `lines` are the lines
appended to the file, in order; `avail t` is how many of them have been
written by iteration `t`; `stop t` is whether `stop_event.is_set()` holds
at iteration `t`.  Each iteration either observes the stop signal and
exits, reads the next available line and invokes the callback with the
`strip()`ped content (`callback(line.strip())`), or sleeps because
`readline()` returned an empty string.  The result is the list of callback
arguments, in invocation order; `fuel` bounds the number of iterations
modelled. -/
def tailLoop (lines : List (List Char)) (avail : Nat → Nat) (stop : Nat → Bool) :
    Nat → Nat → Nat → List (List Char)
  | 0, _, _ => []
  | fuel + 1, t, i =>
    if stop t then []
    else if i < min (avail t) lines.length then
      pyStrip (lines.getD i []) :: tailLoop lines avail stop fuel (t + 1) (i + 1)
    else
      tailLoop lines avail stop fuel (t + 1) i

/-! ## The async bridge (`src/backend/async_bridge.py`) -/

/-- Every `RenodeBridge` operation is dispatched by
`self.loop.run_in_executor(None, ...)`, i.e. submitted to the event loop
default `ThreadPoolExecutor`.  This models that pool: `pending` tasks are
submitted but not yet picked up, `running` tasks are executing a backend
call on some worker thread, `done` tasks have finished. -/
structure PoolState where
  pending : Nat
  running : Nat
  done : Nat
deriving DecidableEq

/-- Interleaving semantics of a thread pool with `mw` worker threads: a
pending task starts whenever a worker is free, and a running task may
finish.  Tasks on distinct workers execute concurrently. -/
inductive PoolStep (mw : Nat) : PoolState → PoolState → Prop
  | takeTask (p r d : Nat) : 0 < p → r < mw →
      PoolStep mw ⟨p, r, d⟩ ⟨p - 1, r + 1, d⟩
  | finishTask (p r d : Nat) : 0 < r →
      PoolStep mw ⟨p, r, d⟩ ⟨p, r - 1, d + 1⟩

/-- Reachability in the pool model. -/
def PoolReach (mw : Nat) : PoolState → PoolState → Prop :=
  Relation.ReflTransGen (PoolStep mw)

/-- Worker count of the default asyncio executor (CPython:
`min(32, os.cpu_count() + 4)`). -/
def default_max_workers (cpuCount : Nat) : Nat := min 32 (cpuCount + 4)

/-- The serialization contract claimed by the spec: starting from two
operations dispatched back-to-back, at most one backend call is ever
executing at any instant. -/
def serializedDispatch (mw : Nat) : Prop :=
  ∀ s, PoolReach mw ⟨2, 0, 0⟩ s → s.running ≤ 1

/-- The attribute names defined on class `RenodeWrapper` in
`src/backend/renode_wrapper.py`. -/
def wrapperMethodNames : List String :=
  ["__init__", "setup_logging", "_tail_log_file", "cleanup", "load_script",
   "start", "pause", "reset", "read_memory"]

/-- Embedding of `RenodeBridge.monitor_command`: the attribute access
`self.wrapper.monitor_command` succeeds only if `RenodeWrapper` defines
such a method; otherwise Python raises `AttributeError` before anything is
dispatched to the executor. -/
def RenodeBridge.monitor_command (cmd : String) : Except PyErr (String × String) :=
  if wrapperMethodNames.contains "monitor_command" then
    Except.ok ("", "")
  else
    Except.error PyErr.attributeError

/-- Sleep durations (milliseconds) of the mock-mode operations, from the
`time.sleep` calls in the source. -/
def mockLoadDelayMs : Nat := 500

/-- Mock `start` sleeps 0.2 s. -/
def mockStartDelayMs : Nat := 200

/-- Mock `pause` sleeps 0.1 s. -/
def mockPauseDelayMs : Nat := 100

/-- Mock `reset` sleeps 0.5 s. -/
def mockResetDelayMs : Nat := 500

/-- Mock `read_memory` sleeps 0.01 s. -/
def mockReadDelayMs : Nat := 10

/-! ## Claim theorems -/

/-- C9: in both real and substitute mode, `read_memory(address, width)`
returns the fixed constant `0xDEADBEEF`, deterministically and completely
independently of the address, the width, the mode, and all prior operations
on the Session (a read never changes the session state, so any two reads,
in any modes, at any addresses and widths, return equal values). -/
theorem C9_read_memory_constant :
    (∀ (mode : Mode) (addr width : Nat),
      RenodeWrapper.read_memory mode addr width = 0xDEADBEEF)
    ∧ (∀ (mode : Mode) (addr width : Nat) (s : WrapperState),
        stepW mode (.opRead addr width) s = (s, none))
    ∧ (∀ (m m2 : Mode) (a a2 w w2 : Nat),
        RenodeWrapper.read_memory m a w = RenodeWrapper.read_memory m2 a2 w2) :=
  ⟨fun mode _ _ => by cases mode <;> rfl,
   fun _ _ _ _ => rfl,
   fun m m2 _ _ _ _ => by cases m <;> cases m2 <;> rfl⟩

/-- C5 divergence witness: `read_memory` in real mode is a stub.  Reads of
two distinct addresses (which may hold different values in the emulated
machine) both return the placeholder `0xDEADBEEF`, hence equal results, and
the session state is untouched; so the code does not return the width-byte
value stored at the address. -/
theorem C5_read_memory_divergence :
    RenodeWrapper.read_memory .real 0x1000 4 = 0xDEADBEEF
    ∧ RenodeWrapper.read_memory .real 0x2000 4 = 0xDEADBEEF
    ∧ RenodeWrapper.read_memory .real 0x1000 4
        = RenodeWrapper.read_memory .real 0x2000 4
    ∧ (∀ s : WrapperState, stepW .real (.opRead 0x1000 4) s = (s, none)) :=
  ⟨rfl, rfl, rfl, fun _ => rfl⟩

/-- C4 divergence witness: `RenodeWrapper` defines no `monitor_command`
method, so `RenodeBridge.monitor_command` raises `AttributeError` for every
command text instead of returning a captured (output, error) pair; it never
reaches the backend console at all. -/
theorem C4_monitor_command_attribute_error :
    ("monitor_command" ∈ wrapperMethodNames ↔ False)
    ∧ (∀ cmd : String,
        RenodeBridge.monitor_command cmd = Except.error PyErr.attributeError) :=
  ⟨by decide, fun _ => by rfl⟩

/-- C8: in substitute (mock) mode, `load_script` with the empty path always
raises `ValueError` (the InvalidArgument of the spec taxonomy), `load_script`
with any non-empty path always succeeds and changes nothing, the mock delay
before the path check is positive (0.5 s), and `start`, `pause`, `reset` and
`read_memory` never raise in mock mode. -/
theorem C8_mock_behavior :
    (∀ (ok : Bool) (s : WrapperState),
      RenodeWrapper.load_script .mock ok "" s = (s, some PyErr.valueError))
    ∧ (∀ (ok : Bool) (p : String) (s : WrapperState), p ≠ "" →
        RenodeWrapper.load_script .mock ok p s = (s, none))
    ∧ (∀ (ok : Bool) (s : WrapperState), (RenodeWrapper.start .mock ok s).2 = none)
    ∧ (∀ (ok : Bool) (s : WrapperState), (RenodeWrapper.pause .mock ok s).2 = none)
    ∧ (∀ (ok : Bool) (s : WrapperState), (RenodeWrapper.reset .mock ok s).2 = none)
    ∧ (∀ (addr width : Nat) (s : WrapperState),
        stepW .mock (.opRead addr width) s = (s, none))
    ∧ 0 < mockLoadDelayMs :=
  ⟨fun _ _ => rfl,
   fun _ p _ hp => by simp [RenodeWrapper.load_script, hp],
   fun _ _ => rfl, fun _ _ => rfl, fun _ _ => rfl, fun _ _ _ => rfl,
   by decide⟩

/-- C8 witness: instantiating the non-empty-path conjunct at the concrete
path of the spec example. -/
theorem C8_mock_behavior_witness :
    ("any.resc" : String) ≠ ""
    ∧ RenodeWrapper.load_script .mock true "any.resc" initWrapper
        = (initWrapper, none) :=
  ⟨by decide, C8_mock_behavior.2.1 true "any.resc" initWrapper (by decide)⟩

/-- C10: on a freshly constructed Session on which `setup_logging` was never
called, all three logging fields are `None`, and `cleanup` skips every
branch: it raises no error and returns the state unchanged, for either
outcome of the (never attempted) file removal. -/
theorem C10_cleanup_fresh_noop :
    initWrapper.log_file_path = none
    ∧ initWrapper.log_thread = none
    ∧ initWrapper.stop_logging_event = none
    ∧ (∀ removeOk : Bool,
        RenodeWrapper.cleanup removeOk initWrapper = (initWrapper, none)) :=
  ⟨rfl, rfl, rfl, fun r => by cases r <;> rfl⟩

/-- An element is always a member of the list obtained by inserting it
(the conditional insert used to model `threading.Event.set`). -/
theorem mem_insertEvent (e : Nat) (l : List Nat) :
    e ∈ (if e ∈ l then l else e :: l) := by
  split
  · assumption
  · exact List.mem_cons_self e l

/-- A removed path is not a member of the filtered file list. -/
theorem not_mem_filter_ne (p : Nat) (l : List Nat) :
    p ∉ l.filter (fun q => q != p) := by
  intro h
  have h2 := (List.mem_filter.mp h).2
  simp at h2

/-- C2 counterexample: starting from a fresh Session in real mode, two
consecutive successful `setup_logging` calls leave two tailer threads alive
concurrently (the stop event of the first is never set), violating the
at-most-one-live-LogStream invariant. -/
theorem C2_counterexample :
    liveCount ((stepW .real (.opSetup true)
        ((stepW .real (.opSetup true) initWrapper).1)).1) = 2
    ∧ ¬ liveCount ((stepW .real (.opSetup true)
        ((stepW .real (.opSetup true) initWrapper).1)).1) ≤ 1 := by
  exact ⟨by decide, by decide⟩

/-- C2 amended: a second (or any further) successful real-mode
`setup_logging` call does not reject and does not stop the prior tailer: it
sets no stop event (`setEvents` is unchanged) and starts a fresh tailer
thread, so the number of live tailer threads grows by exactly one; two
consecutive calls therefore leave two tailers alive. -/
theorem C2_setup_logging_amended (s : WrapperState) (h : wfW s) :
    liveCount ((RenodeWrapper.setup_logging .real true s).1) = liveCount s + 1
    ∧ ((RenodeWrapper.setup_logging .real true s).1).setEvents = s.setEvents := by
  have hne : (s.next + 1) ∉ s.setEvents := by
    intro hmem
    have := h.1 _ hmem
    omega
  constructor
  · simp [RenodeWrapper.setup_logging, liveCount, liveTailers,
      List.filter_cons, hne]
  · simp [RenodeWrapper.setup_logging]

/-- C2 witness: the amended theorem applied to the fresh Session state. -/
theorem C2_setup_logging_amended_witness :
    wfW initWrapper
    ∧ liveCount ((RenodeWrapper.setup_logging .real true initWrapper).1)
        = liveCount initWrapper + 1 :=
  ⟨by decide, (C2_setup_logging_amended initWrapper (by decide)).1⟩

/-- C7: `cleanup` never raises (the only fallible step, `os.remove`, is
wrapped in `except OSError: pass`, so even a failed removal is swallowed);
calling it a second time is a no-op on the state; and after a `cleanup`
whose removal step succeeds, the stored temporary log file no longer exists
on disk. -/
theorem C7_cleanup_idempotent :
    (∀ (removeOk : Bool) (s : WrapperState),
      (RenodeWrapper.cleanup removeOk s).2 = none)
    ∧ (∀ s : WrapperState,
        RenodeWrapper.cleanup true ((RenodeWrapper.cleanup true s).1)
          = ((RenodeWrapper.cleanup true s).1, none))
    ∧ (∀ (s : WrapperState) (p : Nat), s.log_file_path = some p →
        p ∉ ((RenodeWrapper.cleanup true s).1).files) := by
  refine ⟨fun r s => rfl, ?_, ?_⟩
  · intro s
    obtain ⟨run, lfp, lth, sle, te, se, fi, nx⟩ := s
    cases sle with
    | none =>
      cases lfp with
      | none => rfl
      | some p =>
        by_cases hp : p ∈ fi
        · simp [RenodeWrapper.cleanup, RenodeWrapper.os_remove, hp,
            not_mem_filter_ne p fi]
        · simp [RenodeWrapper.cleanup, RenodeWrapper.os_remove, hp]
    | some e =>
      cases lfp with
      | none =>
        simp [RenodeWrapper.cleanup, mem_insertEvent e se]
      | some p =>
        by_cases hp : p ∈ fi
        · simp [RenodeWrapper.cleanup, RenodeWrapper.os_remove, hp,
            mem_insertEvent e se, not_mem_filter_ne p fi]
        · simp [RenodeWrapper.cleanup, RenodeWrapper.os_remove, hp,
            mem_insertEvent e se]
  · intro s p hlfp
    obtain ⟨run, lfp, lth, sle, te, se, fi, nx⟩ := s
    cases hlfp
    cases sle with
    | none =>
      by_cases hp : p ∈ fi
      · simp [RenodeWrapper.cleanup, RenodeWrapper.os_remove, hp,
          not_mem_filter_ne p fi]
      · simp [RenodeWrapper.cleanup, RenodeWrapper.os_remove, hp]
    | some e =>
      by_cases hp : p ∈ fi
      · simp [RenodeWrapper.cleanup, RenodeWrapper.os_remove, hp,
          not_mem_filter_ne p fi]
      · simp [RenodeWrapper.cleanup, RenodeWrapper.os_remove, hp]

/-- C7 witness: the no-file-remains conjunct applied to a concrete Session
state holding a live LogStream on file 0. -/
theorem C7_cleanup_idempotent_witness :
    (⟨false, some 0, some 2, some 1, [(2, 1)], [], [0], 3⟩ :
        WrapperState).log_file_path = some 0
    ∧ 0 ∉ ((RenodeWrapper.cleanup true
        ⟨false, some 0, some 2, some 1, [(2, 1)], [], [0], 3⟩).1).files :=
  ⟨rfl, C7_cleanup_idempotent.2.2 _ 0 rfl⟩

/-- `setup_logging` never changes the `running` flag. -/
theorem setup_logging_preserves_running (mode : Mode) (ok : Bool) (s : WrapperState) :
    ((RenodeWrapper.setup_logging mode ok s).1).running = s.running := by
  cases mode <;> cases ok <;> rfl

/-- `cleanup` never changes the `running` flag. -/
theorem cleanup_preserves_running (r : Bool) (s : WrapperState) :
    ((RenodeWrapper.cleanup r s).1).running = s.running := by
  obtain ⟨run, lfp, lth, sle, te, se, fi, nx⟩ := s
  cases sle <;> cases lfp <;>
    simp [RenodeWrapper.cleanup, RenodeWrapper.os_remove] <;>
    split_ifs <;> rfl

/-- `load_script` never changes the `running` flag. -/
theorem load_script_preserves_running (mode : Mode) (ok : Bool) (p : String)
    (s : WrapperState) :
    ((RenodeWrapper.load_script mode ok p s).1).running = s.running := by
  cases mode <;> cases ok <;> simp [RenodeWrapper.load_script] <;> split_ifs <;> rfl

/-- A step that is not a successful `start()` keeps a stopped Session
stopped. -/
theorem running_false_step (mode : Mode) (op : WOp) (s : WrapperState)
    (hop : isSuccStart mode op = false) (hs : s.running = false) :
    ((stepW mode op s).1).running = false := by
  cases op with
  | opLoad ok p => rw [stepW, load_script_preserves_running]; exact hs
  | opStart ok =>
    cases mode with
    | mock => simp [isSuccStart] at hop
    | real =>
      simp [isSuccStart] at hop
      simp [stepW, RenodeWrapper.start, hop, hs]
  | opPause ok =>
    cases mode <;> cases ok <;>
      simp [stepW, RenodeWrapper.pause, hs]
  | opReset ok =>
    cases mode <;> cases ok <;>
      simp [stepW, RenodeWrapper.reset, hs]
  | opRead a w => exact hs
  | opSetup ok => rw [stepW, setup_logging_preserves_running]; exact hs
  | opCleanup r => rw [stepW, cleanup_preserves_running]; exact hs

/-- Auxiliary induction for traces: no successful `start()` in the trace
means the Session stays stopped. -/
theorem runTrace_aux (mode : Mode) : ∀ (ops : List WOp) (s : WrapperState),
    s.running = false → (∀ op ∈ ops, isSuccStart mode op = false) →
    (ops.foldl (fun s op => (stepW mode op s).1) s).running = false := by
  intro ops
  induction ops with
  | nil => intro s hs _; simpa using hs
  | cons op rest ih =>
    intro s hs hall
    simp only [List.foldl_cons]
    exact ih _ (running_false_step mode op s (hall op (by simp)) hs)
      (fun o ho => hall o (by simp [ho]))

/-- C3: the `running` flag is `false` from construction and stays `false`
along any trace containing no successful `start()`; every operation that
raises leaves `running` exactly as it was (never set optimistically); a
successful `start()` leaves it `true`; a successful `pause()` or `reset()`
leaves it `false`; and any operation that changes `running` at all is a
`start`, `pause` or `reset`. -/
theorem C3_running_flag :
    initWrapper.running = false
    ∧ (∀ (mode : Mode) (op : WOp) (s : WrapperState),
        (stepW mode op s).2.isSome = true →
        ((stepW mode op s).1).running = s.running)
    ∧ (∀ (mode : Mode) (ok : Bool) (s : WrapperState),
        (stepW mode (.opStart ok) s).2 = none →
        ((stepW mode (.opStart ok) s).1).running = true)
    ∧ (∀ (mode : Mode) (ok : Bool) (s : WrapperState),
        (stepW mode (.opPause ok) s).2 = none →
        ((stepW mode (.opPause ok) s).1).running = false)
    ∧ (∀ (mode : Mode) (ok : Bool) (s : WrapperState),
        (stepW mode (.opReset ok) s).2 = none →
        ((stepW mode (.opReset ok) s).1).running = false)
    ∧ (∀ (mode : Mode) (op : WOp) (s : WrapperState),
        ((stepW mode op s).1).running ≠ s.running →
        (∃ ok, op = WOp.opStart ok) ∨ (∃ ok, op = WOp.opPause ok)
          ∨ (∃ ok, op = WOp.opReset ok))
    ∧ (∀ (mode : Mode) (ops : List WOp),
        (∀ op ∈ ops, isSuccStart mode op = false) →
        (runTrace mode ops).running = false) := by
  refine ⟨rfl, ?_, ?_, ?_, ?_, ?_, ?_⟩
  · intro mode op s h
    cases op with
    | opLoad ok p => rw [stepW, load_script_preserves_running]
    | opStart ok =>
      cases mode <;> cases ok <;>
        simp_all [stepW, RenodeWrapper.start]
    | opPause ok =>
      cases mode <;> cases ok <;>
        simp_all [stepW, RenodeWrapper.pause]
    | opReset ok =>
      cases mode <;> cases ok <;>
        simp_all [stepW, RenodeWrapper.reset]
    | opRead a w => rfl
    | opSetup ok => rw [stepW, setup_logging_preserves_running]
    | opCleanup r => rw [stepW, cleanup_preserves_running]
  · intro mode ok s h
    cases mode <;> cases ok <;> simp_all [stepW, RenodeWrapper.start]
  · intro mode ok s h
    cases mode <;> cases ok <;> simp_all [stepW, RenodeWrapper.pause]
  · intro mode ok s h
    cases mode <;> cases ok <;> simp_all [stepW, RenodeWrapper.reset]
  · intro mode op s h
    cases op with
    | opLoad ok p =>
      exact absurd (load_script_preserves_running mode ok p s) h
    | opStart ok => exact Or.inl ⟨ok, rfl⟩
    | opPause ok => exact Or.inr (Or.inl ⟨ok, rfl⟩)
    | opReset ok => exact Or.inr (Or.inr ⟨ok, rfl⟩)
    | opRead a w => exact absurd rfl h
    | opSetup ok =>
      exact absurd (setup_logging_preserves_running mode ok s) h
    | opCleanup r =>
      exact absurd (cleanup_preserves_running r s) h
  · intro mode ops h
    exact runTrace_aux mode ops initWrapper rfl h

/-- C3 witness: a failed real-mode `start()` leaves `running` unchanged; a
successful mock-mode `start()` sets it; a trace of a load and a pause (no
successful start) leaves the Session stopped. -/
theorem C3_running_flag_witness :
    (stepW .real (.opStart false) initWrapper).2.isSome = true
    ∧ ((stepW .real (.opStart false) initWrapper).1).running = initWrapper.running
    ∧ (stepW .mock (.opStart true) initWrapper).2 = none
    ∧ ((stepW .mock (.opStart true) initWrapper).1).running = true
    ∧ (∀ op ∈ [WOp.opLoad true "a", WOp.opPause true], isSuccStart .mock op = false)
    ∧ (runTrace .mock [WOp.opLoad true "a", WOp.opPause true]).running = false := by
  refine ⟨by decide, C3_running_flag.2.1 .real _ initWrapper (by decide),
    by decide, C3_running_flag.2.2.1 .mock true initWrapper (by decide),
    by decide, C3_running_flag.2.2.2.2.2.2 .mock _ (by decide)⟩

/-- C1 counterexample: the bridge submits every operation to the default
executor (`run_in_executor(None, ...)`), whose pool has
`min(32, cpu_count + 4)` worker threads — 5 even on a single-CPU machine,
never 1.  From two operations dispatched back-to-back, the state in which
both backend calls are executing concurrently is reachable, so the claimed
serialization contract fails. -/
theorem C1_counterexample :
    default_max_workers 1 = 5 ∧ ¬ serializedDispatch (default_max_workers 1) := by
  refine ⟨rfl, fun h => ?_⟩
  have h1 : PoolStep (default_max_workers 1) ⟨2, 0, 0⟩ ⟨1, 1, 0⟩ :=
    PoolStep.takeTask 2 0 0 (by decide) (by decide)
  have h2 : PoolStep (default_max_workers 1) ⟨1, 1, 0⟩ ⟨0, 2, 0⟩ :=
    PoolStep.takeTask 1 1 0 (by decide) (by decide)
  have hr : PoolReach (default_max_workers 1) ⟨2, 0, 0⟩ ⟨0, 2, 0⟩ :=
    Relation.ReflTransGen.tail (Relation.ReflTransGen.tail .refl h1) h2
  exact absurd (h _ hr) (by decide)

/-- C1 amended: the bridge does not use a dedicated single worker; it uses
the default thread pool, which always has at least two workers, and under
it a state with two backend calls running concurrently is reachable from
two back-to-back dispatches.  Serialization in issuance order would hold
precisely under a single-worker executor: with one worker, every reachable
state has at most one backend call executing. -/
theorem C1_dispatch_amended :
    (∀ cpuCount : Nat,
      2 ≤ default_max_workers cpuCount
      ∧ ∃ s, PoolReach (default_max_workers cpuCount) ⟨2, 0, 0⟩ s ∧ s.running = 2)
    ∧ (∀ s, PoolReach 1 ⟨2, 0, 0⟩ s → s.running ≤ 1) := by
  constructor
  · intro cpu
    have hmw : 2 ≤ default_max_workers cpu :=
      Nat.le_min.mpr ⟨by norm_num, by omega⟩
    refine ⟨hmw, ⟨0, 2, 0⟩, ?_, rfl⟩
    have h1 : PoolStep (default_max_workers cpu) ⟨2, 0, 0⟩ ⟨1, 1, 0⟩ :=
      PoolStep.takeTask 2 0 0 (by omega) (by omega)
    have h2 : PoolStep (default_max_workers cpu) ⟨1, 1, 0⟩ ⟨0, 2, 0⟩ :=
      PoolStep.takeTask 1 1 0 (by omega) (by omega)
    exact Relation.ReflTransGen.tail (Relation.ReflTransGen.tail .refl h1) h2
  · intro s h
    induction h with
    | refl => decide
    | tail hab hbc ih =>
      cases hbc with
      | takeTask p r d hp hr =>
        have ih2 : r ≤ 1 := ih
        show r + 1 ≤ 1
        omega
      | finishTask p r d hr =>
        have ih2 : r ≤ 1 := ih
        show r - 1 ≤ 1
        omega

/-- C1 witness: the single-worker serialization conjunct applied to the
concrete reachable state with one task started. -/
theorem C1_dispatch_amended_witness :
    PoolReach 1 ⟨2, 0, 0⟩ ⟨1, 1, 0⟩ ∧ PoolState.running ⟨1, 1, 0⟩ ≤ 1 := by
  have hr : PoolReach 1 ⟨2, 0, 0⟩ ⟨1, 1, 0⟩ :=
    Relation.ReflTransGen.tail .refl (PoolStep.takeTask 2 0 0 (by decide) (by decide))
  exact ⟨hr, C1_dispatch_amended.2 _ hr⟩

/-- Splitting a list at a valid index into head element and remainder. -/
theorem drop_eq_getD_cons : ∀ (l : List (List Char)) (i : Nat), i < l.length →
    l.drop i = l.getD i [] :: l.drop (i + 1) := by
  intro l
  induction l with
  | nil => intro i h; simp at h
  | cons a t ih =>
    intro i h
    cases i with
    | zero => simp
    | succ j =>
      have hj : j < t.length := by simpa using h
      simpa using ih j hj

/-- Completeness of the tail loop: if the stop signal is never raised, all
appended lines are available from some iteration `T` on, and the loop runs
for enough iterations, then the callback is invoked exactly once per
appended line, in append order, with the `strip()`ped content of the line. -/
theorem tailLoop_drains (lines : List (List Char)) (avail : Nat → Nat)
    (stop : Nat → Bool) (T : Nat)
    (hstop : ∀ u, stop u = false)
    (havail : ∀ u, T ≤ u → lines.length ≤ avail u) :
    ∀ (fuel t i : Nat), (T - t) + (lines.length - i) ≤ fuel →
      tailLoop lines avail stop fuel t i = (lines.drop i).map pyStrip := by
  intro fuel
  induction fuel with
  | zero =>
    intro t i hb
    have h1 : lines.length ≤ i := by omega
    rw [List.drop_eq_nil_of_le h1]
    simp [tailLoop]
  | succ n ih =>
    intro t i hb
    simp only [tailLoop, hstop t, Bool.false_eq_true, if_false]
    by_cases hi : i < min (avail t) lines.length
    · rw [if_pos hi]
      have hilen : i < lines.length := lt_of_lt_of_le hi (min_le_right _ _)
      rw [ih (t + 1) (i + 1) (by omega)]
      rw [drop_eq_getD_cons lines i hilen]
      simp
    · rw [if_neg hi]
      by_cases ht : T ≤ t
      · have hav := havail t ht
        have hmin : min (avail t) lines.length = lines.length :=
          Nat.min_eq_right hav
        rw [hmin] at hi
        have hle : lines.length ≤ i := by omega
        exact ih (t + 1) i (by omega)
      · exact ih (t + 1) i (by omega)

/-- C6 counterexample: appending the single line with leading whitespace
(two spaces, then the letter a, then a newline) to the watched file makes
the code invoke the callback with the fully `strip()`ped text (just the
letter a): the leading characters are removed too, while the claim requires
only the trailing line terminator stripped (which would preserve the two
leading spaces). -/
theorem C6_counterexample :
    tailLoop ["  a\n".toList] (fun _ => 1) (fun _ => false) 2 0 0 = ["a".toList]
    ∧ ("a".toList : List Char) ≠ "  a".toList :=
  ⟨by decide, by decide⟩

/-- C6 amended: for a freshly started tailer on an empty file, if n lines
are appended externally in order (all available from iteration `T` on) and
the stop signal is never raised, the callback is invoked exactly n times,
in append order, with no duplicated or dropped line; each invocation
receives the line with BOTH leading and trailing whitespace removed
(Python `str.strip()`), not merely the trailing line terminator. -/
theorem C6_tailer_amended (lines : List (List Char)) (avail : Nat → Nat)
    (stop : Nat → Bool) (T fuel : Nat)
    (hstop : ∀ u, stop u = false)
    (havail : ∀ u, T ≤ u → lines.length ≤ avail u)
    (hfuel : T + lines.length ≤ fuel) :
    tailLoop lines avail stop fuel 0 0 = lines.map pyStrip := by
  have h := tailLoop_drains lines avail stop T hstop havail fuel 0 0 (by omega)
  simpa using h

/-- C6 witness: two concrete appended lines, all available at once, drained
with three iterations of fuel. -/
theorem C6_tailer_amended_witness :
    tailLoop ["  one\n".toList, "two\n".toList] (fun _ => 2) (fun _ => false) 3 0 0
      = ["  one\n".toList, "two\n".toList].map pyStrip :=
  C6_tailer_amended _ _ _ 0 3 (fun _ => rfl) (fun _ _ => by decide) (by decide)
